import Mathlib

/-
Verification of the ChimeraX-Gamepad input pipeline.

Shallow embedding of the core modules:
  src/core/controller.py  (axis normalization, trigger reading)
  src/core/config.py      (configuration store, clamped setters, merge-based load)
  src/core/actions.py     (ViewAction / ModelAction appliers)
  src/core/gamepad.py     (GamepadManager event/analog dispatch loop)

Numbers are modelled as rationals; raw SDL axis values as integers.
External collaborators (camera transforms, model poses) are modelled as
explicit state: rotate/translate calls are logged as operations, model poses
are formal compositions of external geometry constructors.
Reading an attribute the object does not define (Python AttributeError)
is modelled with Except; the appliers read the sensitivity attributes
that the command/UI layer stores on the config object.
-/

namespace Gamepad

/-- Python abs on a rational, written so that the kernel can evaluate it. -/
def qabs (q : ℚ) : ℚ := if q < 0 then -q else q

/-- Python max on rationals, written so that the kernel can evaluate it. -/
def qmax (a b : ℚ) : ℚ := if a ≤ b then b else a

/-- Python min on rationals, written so that the kernel can evaluate it. -/
def qmin (a b : ℚ) : ℚ := if a ≤ b then a else b

/-- Python max on integers, written so that the kernel can evaluate it. -/
def imax (a b : ℤ) : ℤ := if a ≤ b then b else a

/-- qabs agrees with the absolute value. -/
theorem qabs_eq (q : ℚ) : qabs q = |q| := by
  unfold qabs
  split
  · rename_i h
    rw [abs_of_neg h]
  · rename_i h
    rw [abs_of_nonneg (not_lt.mp h)]

/-- qmax agrees with the lattice max. -/
theorem qmax_eq (a b : ℚ) : qmax a b = max a b := by
  unfold qmax
  split
  · rename_i h
    rw [max_eq_right h]
  · rename_i h
    rw [max_eq_left (le_of_not_le h)]

/-- qmin agrees with the lattice min. -/
theorem qmin_eq (a b : ℚ) : qmin a b = min a b := by
  unfold qmin
  split
  · rename_i h
    rw [min_eq_left h]
  · rename_i h
    rw [min_eq_right (le_of_not_le h)]

/-- imax agrees with the lattice max. -/
theorem imax_eq (a b : ℤ) : imax a b = max a b := by
  unfold imax
  split
  · rename_i h
    rw [max_eq_right h]
  · rename_i h
    rw [max_eq_left (le_of_not_le h)]

/-- Axis value range bound from SDL2 (Controller.AXIS_MAX). -/
def AXIS_MAX : ℚ := 32767

/-- Embedding of Controller._normalize_axis: divide by AXIS_MAX, zero inside
the dead zone, rescale the remainder of the range to full scale outside it. -/
def normalizeAxis (dead_zone : ℚ) (value : ℤ) : ℚ :=
  let normalized : ℚ := (value : ℚ) / AXIS_MAX
  if qabs normalized < dead_zone then 0
  else (if 0 < normalized then 1 else -1) * (qabs normalized - dead_zone) / (1 - dead_zone)

/-- Embedding of Controller.get_left_trigger / get_right_trigger:
clamp the raw value to non-negative and divide by AXIS_MAX. -/
def triggerValue (value : ℤ) : ℚ :=
  ((imax 0 value : ℤ) : ℚ) / AXIS_MAX

/-- Configuration store (GamepadConfig._config plus the two plain instance
attributes view_sensitivity / model_sensitivity that the command and UI
layers assign on the object; they are absent until first assigned). -/
structure GamepadConfig where
  dead_zone : ℚ
  translation_sensitivity : ℚ
  rotation_sensitivity : ℚ
  zoom_sensitivity : ℚ
  invert_y : Bool
  button_mappings : List (String × String)
  view_sensitivity : Option ℚ
  model_sensitivity : Option ℚ
deriving DecidableEq

/-- GamepadConfig.DEFAULT_CONFIG (merged with no persisted document). -/
def defaultConfig : GamepadConfig :=
  { dead_zone := 3/20
    translation_sensitivity := 1
    rotation_sensitivity := 1
    zoom_sensitivity := 1
    invert_y := false
    button_mappings := []
    view_sensitivity := none
    model_sensitivity := none }

/-- Embedding of the dead_zone property setter: clamp to [0, 0.5]. -/
def setDeadZone (cfg : GamepadConfig) (v : ℚ) : GamepadConfig :=
  { cfg with dead_zone := qmax 0 (qmin (1/2) v) }

/-- Embedding of the translation_sensitivity setter: clamp to [0.1, 5]. -/
def setTranslationSensitivity (cfg : GamepadConfig) (v : ℚ) : GamepadConfig :=
  { cfg with translation_sensitivity := qmax (1/10) (qmin 5 v) }

/-- Embedding of the rotation_sensitivity setter: clamp to [0.1, 5]. -/
def setRotationSensitivity (cfg : GamepadConfig) (v : ℚ) : GamepadConfig :=
  { cfg with rotation_sensitivity := qmax (1/10) (qmin 5 v) }

/-- Embedding of the zoom_sensitivity setter: clamp to [0.1, 5]. -/
def setZoomSensitivity (cfg : GamepadConfig) (v : ℚ) : GamepadConfig :=
  { cfg with zoom_sensitivity := qmax (1/10) (qmin 5 v) }

/-- Embedding of the invert_y setter. -/
def setInvertY (cfg : GamepadConfig) (b : Bool) : GamepadConfig :=
  { cfg with invert_y := b }

/-- Embedding of cmd.py gamepad_sensitivity "view": plain attribute assignment,
no clamping (config.view_sensitivity = value). -/
def setViewSensitivity (cfg : GamepadConfig) (v : ℚ) : GamepadConfig :=
  { cfg with view_sensitivity := some v }

/-- Embedding of cmd.py gamepad_sensitivity "model": plain attribute assignment,
no clamping (config.model_sensitivity = value). -/
def setModelSensitivity (cfg : GamepadConfig) (v : ℚ) : GamepadConfig :=
  { cfg with model_sensitivity := some v }

/-- GamepadConfig.BUTTON_NAMES lookup with the BUTTON_<n> fallback
(GamepadConfig.button_to_name). -/
def buttonToName (button : ℕ) : String :=
  match button with
  | 0 => "A"
  | 1 => "B"
  | 2 => "X"
  | 3 => "Y"
  | 4 => "BACK"
  | 5 => "GUIDE"
  | 6 => "START"
  | 7 => "LEFTSTICK"
  | 8 => "RIGHTSTICK"
  | 9 => "LEFTSHOULDER"
  | 10 => "RIGHTSHOULDER"
  | 11 => "DPAD_UP"
  | 12 => "DPAD_DOWN"
  | 13 => "DPAD_LEFT"
  | 14 => "DPAD_RIGHT"
  | b => "BUTTON_" ++ toString b

/-- Lookup in a Python dict modelled as an association list. -/
def dictLookup (l : List (String × String)) (k : String) : Option String :=
  (l.find? (fun p => p.1 == k)).map (fun p => p.2)

/-- Assignment d[k] = v in a Python dict modelled as an association list:
replace the existing binding if the key is present, else append. -/
def dictSet (l : List (String × String)) (k v : String) : List (String × String) :=
  if l.any (fun p => p.1 == k) then
    l.map (fun p => if p.1 == k then (k, v) else p)
  else l ++ [(k, v)]

/-- Python truthiness of the command argument of set_button_command:
None and the empty string are falsy. -/
def commandTruthy : Option String → Bool
  | none => false
  | some s => !(s == "")

/-- Embedding of GamepadConfig.get_button_command. -/
def getButtonCommand (cfg : GamepadConfig) (button : ℕ) : Option String :=
  dictLookup cfg.button_mappings (buttonToName button)

/-- Embedding of GamepadConfig.set_button_command: store a truthy command,
delete an existing binding on a falsy command, otherwise do nothing. -/
def setButtonCommand (cfg : GamepadConfig) (button_name : String) (command : Option String) :
    GamepadConfig :=
  if commandTruthy command then
    { cfg with button_mappings := dictSet cfg.button_mappings button_name (command.getD "") }
  else if cfg.button_mappings.any (fun p => p.1 == button_name) then
    { cfg with button_mappings := cfg.button_mappings.filter (fun p => p.1 != button_name) }
  else cfg

/-- A persisted / imported configuration document: a JSON object that may
carry any subset of the known keys (unknown keys do not affect the known
fields and are dropped from the model). -/
structure ConfigDoc where
  dead_zone : Option ℚ
  translation_sensitivity : Option ℚ
  rotation_sensitivity : Option ℚ
  zoom_sensitivity : Option ℚ
  invert_y : Option Bool
  button_mappings : Option (List (String × String))
deriving DecidableEq

/-- Embedding of dict.update(loaded): each key present in the document
replaces the stored value verbatim; absent keys keep the stored value. -/
def mergeDoc (cfg : GamepadConfig) (doc : ConfigDoc) : GamepadConfig :=
  { cfg with
    dead_zone := doc.dead_zone.getD cfg.dead_zone
    translation_sensitivity := doc.translation_sensitivity.getD cfg.translation_sensitivity
    rotation_sensitivity := doc.rotation_sensitivity.getD cfg.rotation_sensitivity
    zoom_sensitivity := doc.zoom_sensitivity.getD cfg.zoom_sensitivity
    invert_y := doc.invert_y.getD cfg.invert_y
    button_mappings := doc.button_mappings.getD cfg.button_mappings }

/-- Outcome of reading the persisted config file. -/
inductive LoadResult
  | missing
  | malformed
  | loaded (doc : ConfigDoc)
deriving DecidableEq

/-- Embedding of GamepadConfig.load: keep the current values when the file is
missing or unreadable, otherwise merge the document over them. -/
def loadConfig (cfg : GamepadConfig) : LoadResult → GamepadConfig
  | LoadResult.missing => cfg
  | LoadResult.malformed => cfg
  | LoadResult.loaded doc => mergeDoc cfg doc

/-- Embedding of GamepadConfig.from_dict: plain dict.update with the data. -/
def fromDict (cfg : GamepadConfig) (doc : ConfigDoc) : GamepadConfig :=
  mergeDoc cfg doc

/-- One operation on the configuration store. -/
inductive ConfigOp
  | setDeadZone (v : ℚ)
  | setTranslationSensitivity (v : ℚ)
  | setRotationSensitivity (v : ℚ)
  | setZoomSensitivity (v : ℚ)
  | setInvertY (b : Bool)
  | setButtonCommand (button_name : String) (command : Option String)
  | load (r : LoadResult)
  | fromDict (doc : ConfigDoc)
deriving DecidableEq

/-- Interpret one configuration operation. -/
def applyConfigOp (cfg : GamepadConfig) : ConfigOp → GamepadConfig
  | ConfigOp.setDeadZone v => setDeadZone cfg v
  | ConfigOp.setTranslationSensitivity v => setTranslationSensitivity cfg v
  | ConfigOp.setRotationSensitivity v => setRotationSensitivity cfg v
  | ConfigOp.setZoomSensitivity v => setZoomSensitivity cfg v
  | ConfigOp.setInvertY b => setInvertY cfg b
  | ConfigOp.setButtonCommand n c => setButtonCommand cfg n c
  | ConfigOp.load r => loadConfig cfg r
  | ConfigOp.fromDict d => fromDict cfg d

/-- Interpret a sequence of configuration operations, oldest first. -/
def applyConfigOps (cfg : GamepadConfig) (ops : List ConfigOp) : GamepadConfig :=
  ops.foldl applyConfigOp cfg

/-- Whether an operation is a clamping property setter (as opposed to the
merge-based load / from_dict import). -/
def ConfigOp.isSetter : ConfigOp → Bool
  | ConfigOp.load _ => false
  | ConfigOp.fromDict _ => false
  | _ => true

/-- The numeric-range invariant claimed for the configuration store. -/
def numericInRange (cfg : GamepadConfig) : Prop :=
  0 ≤ cfg.dead_zone ∧ cfg.dead_zone ≤ 1/2 ∧
  1/10 ≤ cfg.translation_sensitivity ∧ cfg.translation_sensitivity ≤ 5 ∧
  1/10 ≤ cfg.rotation_sensitivity ∧ cfg.rotation_sensitivity ≤ 5 ∧
  1/10 ≤ cfg.zoom_sensitivity ∧ cfg.zoom_sensitivity ≤ 5

instance (cfg : GamepadConfig) : Decidable (numericInRange cfg) := by
  unfold numericInRange; infer_instance

/-- C1: stick normalization divides the raw value by AXIS_MAX = 32767; below
the dead zone the output is exactly 0, otherwise it is
sign(normalized) * (|normalized| - dead_zone) / (1 - dead_zone); at
|normalized| = d the output is exactly 0, at |normalized| = 1 it is exactly
±1, and for d = 0.15 and raw x = 16384 it equals (16384/32767 - 0.15)/0.85. -/
theorem normalizeAxis_spec (d : ℚ) (raw : ℤ) (h0 : 0 ≤ d) (h1 : d ≤ 1/2) :
    (|(raw : ℚ) / 32767| < d → normalizeAxis d raw = 0) ∧
    (d ≤ |(raw : ℚ) / 32767| →
      normalizeAxis d raw =
        (if 0 < (raw : ℚ) / 32767 then 1 else -1) * (|(raw : ℚ) / 32767| - d) / (1 - d)) ∧
    (|(raw : ℚ) / 32767| = d → normalizeAxis d raw = 0) ∧
    (raw = 32767 → normalizeAxis d raw = 1) ∧
    (raw = -32767 → normalizeAxis d raw = -1) ∧
    normalizeAxis (3/20) 16384 = (16384 / 32767 - 3/20) / (1 - 3/20) := by
  have hd1 : (1 : ℚ) - d ≠ 0 := by
    intro h
    have : d = 1 := by linarith
    rw [this] at h1
    norm_num at h1
  refine ⟨?_, ?_, ?_, ?_, ?_, ?_⟩
  · intro h
    simp only [normalizeAxis, AXIS_MAX, qabs_eq]
    rw [if_pos h]
  · intro h
    simp only [normalizeAxis, AXIS_MAX, qabs_eq]
    rw [if_neg (not_lt.mpr h)]
  · intro h
    simp only [normalizeAxis, AXIS_MAX, qabs_eq]
    rw [if_neg (not_lt.mpr (le_of_eq h.symm)), h]
    ring
  · intro h
    subst h
    simp only [normalizeAxis, AXIS_MAX, qabs_eq]
    norm_num
    rw [if_neg (show ¬ (1 : ℚ) < d by linarith)]
    exact div_self hd1
  · intro h
    subst h
    simp only [normalizeAxis, AXIS_MAX, qabs_eq]
    norm_num
    rw [if_neg (show ¬ (1 : ℚ) < d by linarith), div_eq_iff hd1]
    ring
  · simp only [normalizeAxis, AXIS_MAX, qabs_eq]
    rw [if_neg (by rw [abs_of_pos (by norm_num)]; norm_num)]
    rw [if_pos (by norm_num), abs_of_pos (by norm_num)]
    norm_num

/-- Witness for C1 at d = 0.15, raw = 16384 (the spec scenario). -/
theorem normalizeAxis_spec_witness :
    ((0 : ℚ) ≤ 3/20 ∧ (3/20 : ℚ) ≤ 1/2) ∧
    normalizeAxis (3/20) 16384 = (16384 / 32767 - 3/20) / (1 - 3/20) :=
  ⟨⟨by norm_num, by norm_num⟩,
   (normalizeAxis_spec (3/20) 16384 (by norm_num) (by norm_num)).2.2.2.2.2⟩

/-- A 3-vector of scene coordinates. -/
structure Vec3 where
  x : ℚ
  y : ℚ
  z : ℚ
deriving DecidableEq

/-- The orientation part of a camera position (Place.transform_vector applies
the rotation part of the transform to a vector). -/
structure Mat3 where
  m00 : ℚ
  m01 : ℚ
  m02 : ℚ
  m10 : ℚ
  m11 : ℚ
  m12 : ℚ
  m20 : ℚ
  m21 : ℚ
  m22 : ℚ
deriving DecidableEq

/-- Apply the orientation to a vector (camera_pos.transform_vector(v)). -/
def Mat3.transformVector (m : Mat3) (v : Vec3) : Vec3 :=
  ⟨m.m00 * v.x + m.m01 * v.y + m.m02 * v.z,
   m.m10 * v.x + m.m11 * v.y + m.m12 * v.z,
   m.m20 * v.x + m.m21 * v.y + m.m22 * v.z⟩

/-- The identity orientation. -/
def Mat3.idRot : Mat3 := ⟨1, 0, 0, 0, 1, 0, 0, 0, 1⟩

/-- External camera state touched by ViewAction: projection name, orthographic
field width, redraw flag, and orientation used for coordinate conversion. -/
structure Camera where
  name : String
  fieldWidth : ℚ
  redrawNeeded : Bool
  position : Mat3
deriving DecidableEq

/-- One mutating call on the external view (View.rotate / View.translate). -/
inductive ViewOp
  | rotate (axis : Vec3) (angleDeg : ℚ)
  | translate (shift : Vec3)
deriving DecidableEq

/-- External view state: the camera plus the log of rotate/translate calls
issued against the view, oldest first. -/
structure ViewState where
  camera : Camera
  pixelSize : Option ℚ
  ops : List ViewOp
deriving DecidableEq

/-- Python exceptions that the embedded code can raise. -/
inductive PyErr
  | attributeError
deriving DecidableEq

/-- The idle epsilon used by both appliers (0.001). -/
def EPS : ℚ := 1/1000

/-- Embedding of ViewAction._apply_rotation: horizontal rotation about the
camera up axis, then vertical rotation about the camera right axis, each
scaled by sensitivity * 2 degrees and gated on its own component. -/
def applyRotationV (st : ViewState) (rotate_x rotate_y sensitivity : ℚ) : ViewState :=
  let cameraPos := st.camera.position
  let angleSpeed := sensitivity * 2
  let st1 :=
    if EPS < qabs rotate_x then
      { st with ops := st.ops ++
          [ViewOp.rotate (cameraPos.transformVector ⟨0, 1, 0⟩) (rotate_x * angleSpeed)] }
    else st
  if EPS < qabs rotate_y then
    { st1 with ops := st1.ops ++
        [ViewOp.rotate (cameraPos.transformVector ⟨1, 0, 0⟩) (rotate_y * angleSpeed)] }
  else st1

/-- Embedding of ViewAction._apply_pan: camera-space shift scaled by
sensitivity * 20 * pixel_size with the vertical component negated,
transformed to scene space and passed to View.translate. -/
def applyPanV (st : ViewState) (pan_x pan_y sensitivity : ℚ) : ViewState :=
  let psize := st.pixelSize.getD 1
  let panSpeed := sensitivity * 20 * psize
  let shiftScene := st.camera.position.transformVector ⟨pan_x * panSpeed, -pan_y * panSpeed, 0⟩
  { st with ops := st.ops ++ [ViewOp.translate shiftScene] }

/-- Embedding of ViewAction._apply_zoom: delta = zoom * (sensitivity * 15) *
pixel_size; orthographic cameras get field_width = max(field_width - delta,
pixel_size) and a redraw mark, others a translation along the camera Z axis. -/
def applyZoomV (st : ViewState) (zoom sensitivity : ℚ) : ViewState :=
  let zoomSpeed := sensitivity * 15
  let psize := st.pixelSize.getD 1
  let deltaZ := zoom * zoomSpeed * psize
  if st.camera.name = "orthographic" then
    { st with camera := { st.camera with
        fieldWidth := qmax (st.camera.fieldWidth - deltaZ) psize
        redrawNeeded := true } }
  else
    { st with ops := st.ops ++
        [ViewOp.translate (st.camera.position.transformVector ⟨0, 0, deltaZ⟩)] }

/-- Embedding of ViewAction.apply: skip when all five scalars are inside the
idle epsilon, then read config.view_sensitivity (AttributeError when the
attribute was never assigned), then rotation, pan, zoom in that order, each
gated on its own inputs. -/
def viewApply (cfg : GamepadConfig) (st : ViewState)
    (pan_x pan_y rotate_x rotate_y zoom : ℚ) : Except PyErr ViewState :=
  if qabs pan_x < EPS ∧ qabs pan_y < EPS ∧ qabs rotate_x < EPS ∧ qabs rotate_y < EPS ∧ qabs zoom < EPS then
    Except.ok st
  else
    match cfg.view_sensitivity with
    | none => Except.error PyErr.attributeError
    | some sensitivity =>
      let st1 := if EPS < qabs rotate_x ∨ EPS < qabs rotate_y then
          applyRotationV st rotate_x rotate_y sensitivity else st
      let st2 := if EPS < qabs pan_x ∨ EPS < qabs pan_y then
          applyPanV st1 pan_x pan_y sensitivity else st1
      let st3 := if EPS < qabs zoom then applyZoomV st2 zoom sensitivity else st2
      Except.ok st3

/-- One external geometry transform composed onto a model pose
(chimerax.geometry rotation / translation constructors). -/
inductive XForm
  | rot (axis : Vec3) (angleDeg : ℚ) (center : Vec3)
  | trans (shift : Vec3)
deriving DecidableEq

/-- One entry of session.selection.models(): the guards ModelAction checks
(isinstance Model, hasattr position, parent), the optional bounding-volume
center, and the pose as the list of transforms composed onto it, outermost
first. -/
structure SceneModel where
  is_model : Bool
  has_position : Bool
  parent : Option ℕ
  bounds : Option Vec3
  position : List XForm
deriving DecidableEq

/-- External state touched by ModelAction: the selection's model list, the id
of the scene root model, the camera orientation and the pixel size. -/
structure ModelState where
  models : List SceneModel
  sceneRoot : ℕ
  cameraPos : Mat3
  pixelSize : Option ℚ
deriving DecidableEq

/-- The eligibility test of ModelAction._get_selected_models: a Model instance
with a position attribute whose parent is absent or is the scene root. -/
def eligibleModel (root : ℕ) (m : SceneModel) : Bool :=
  m.is_model && m.has_position && (m.parent == none || m.parent == some root)

/-- Embedding of ModelAction._get_selected_models. -/
def selectedModels (st : ModelState) : List SceneModel :=
  st.models.filter (eligibleModel st.sceneRoot)

/-- Per-model body of ModelAction._apply_rotation: left-multiply a rotation
about the camera up axis (gated on rotate_x), then one about the camera right
axis (gated on rotate_y), pivoting at the model center (bounding center, or
the origin when no bounding volume is available). -/
def rotOne (cameraPos : Mat3) (rotate_x rotate_y sensitivity : ℚ) (m : SceneModel) :
    SceneModel :=
  let angleSpeed := sensitivity * 2
  let center := m.bounds.getD ⟨0, 0, 0⟩
  let pos1 :=
    if EPS < qabs rotate_x then
      XForm.rot (cameraPos.transformVector ⟨0, 1, 0⟩) (rotate_x * angleSpeed) center :: m.position
    else m.position
  let pos2 :=
    if EPS < qabs rotate_y then
      XForm.rot (cameraPos.transformVector ⟨1, 0, 0⟩) (rotate_y * angleSpeed) center :: pos1
    else pos1
  { m with position := pos2 }

/-- Left-multiply a shared translation onto a model pose (the loop bodies of
ModelAction._apply_translation_xy / _apply_translation_z). -/
def transOne (shift : Vec3) (m : SceneModel) : SceneModel :=
  { m with position := XForm.trans shift :: m.position }

/-- Embedding of ModelAction._apply_rotation over the eligible selection. -/
def applyRotationM (st : ModelState) (rotate_x rotate_y sensitivity : ℚ) : ModelState :=
  { st with models := st.models.map (fun m =>
      if eligibleModel st.sceneRoot m then rotOne st.cameraPos rotate_x rotate_y sensitivity m
      else m) }

/-- Embedding of ModelAction._apply_translation_xy: one camera-space shift
scaled by sensitivity * 20 * pixel_size (vertical negated), transformed to
scene space, applied identically to every eligible model. -/
def applyTranslationXYM (st : ModelState) (translate_x translate_y sensitivity : ℚ) :
    ModelState :=
  let psize := st.pixelSize.getD 1
  let transSpeed := sensitivity * 20 * psize
  let shiftScene := st.cameraPos.transformVector
    ⟨translate_x * transSpeed, -translate_y * transSpeed, 0⟩
  { st with models := st.models.map (fun m =>
      if eligibleModel st.sceneRoot m then transOne shiftScene m else m) }

/-- Embedding of ModelAction._apply_translation_z: camera-space shift
(0, 0, translate_z * sensitivity * 60 * pixel_size) transformed to scene
space and applied to every eligible model. -/
def applyTranslationZM (st : ModelState) (translate_z sensitivity : ℚ) : ModelState :=
  let psize := st.pixelSize.getD 1
  let transSpeed := sensitivity * 60 * psize
  let shiftScene := st.cameraPos.transformVector ⟨0, 0, translate_z * transSpeed⟩
  { st with models := st.models.map (fun m =>
      if eligibleModel st.sceneRoot m then transOne shiftScene m else m) }

/-- Embedding of ModelAction.apply: collect the eligible selection first and
skip when it is empty, then skip when all five scalars are inside the idle
epsilon, then read config.model_sensitivity (AttributeError when the
attribute was never assigned), then rotation, XY translation, Z translation. -/
def modelApply (cfg : GamepadConfig) (st : ModelState)
    (translate_x translate_y rotate_x rotate_y translate_z : ℚ) : Except PyErr ModelState :=
  if (selectedModels st).isEmpty then Except.ok st
  else if qabs translate_x < EPS ∧ qabs translate_y < EPS ∧ qabs rotate_x < EPS ∧ qabs rotate_y < EPS ∧
      qabs translate_z < EPS then
    Except.ok st
  else
    match cfg.model_sensitivity with
    | none => Except.error PyErr.attributeError
    | some sensitivity =>
      let st1 := if EPS < qabs rotate_x ∨ EPS < qabs rotate_y then
          applyRotationM st rotate_x rotate_y sensitivity else st
      let st2 := if EPS < qabs translate_x ∨ EPS < qabs translate_y then
          applyTranslationXYM st1 translate_x translate_y sensitivity else st1
      let st3 := if EPS < qabs translate_z then
          applyTranslationZM st2 translate_z sensitivity else st2
      Except.ok st3

/-- The raw axis registers SDL reports for one controller this frame. -/
structure ControllerInput where
  leftX : ℤ
  leftY : ℤ
  rightX : ℤ
  rightY : ℤ
  leftTrig : ℤ
  rightTrig : ℤ
deriving DecidableEq

/-- One open controller in the registry (instance id plus its readings). -/
structure ControllerEntry where
  instanceId : ℕ
  input : ControllerInput
deriving DecidableEq

/-- Embedding of Controller.get_left_stick: optional Y inversion on the raw
value, then per-axis dead-zone normalization. -/
def getLeftStick (cfg : GamepadConfig) (inp : ControllerInput) : ℚ × ℚ :=
  let yRaw := if cfg.invert_y then -inp.leftY else inp.leftY
  (normalizeAxis cfg.dead_zone inp.leftX, normalizeAxis cfg.dead_zone yRaw)

/-- Embedding of Controller.get_right_stick. -/
def getRightStick (cfg : GamepadConfig) (inp : ControllerInput) : ℚ × ℚ :=
  let yRaw := if cfg.invert_y then -inp.rightY else inp.rightY
  (normalizeAxis cfg.dead_zone inp.rightX, normalizeAxis cfg.dead_zone yRaw)

/-- The two control modes (ControlMode enum). -/
inductive ControlMode
  | VIEW
  | MODEL
deriving DecidableEq

/-- Embedding of GamepadManager.toggle_mode. -/
def toggleMode : ControlMode → ControlMode
  | ControlMode.VIEW => ControlMode.MODEL
  | ControlMode.MODEL => ControlMode.VIEW

/-- GamepadManager state: the running flag, the controller registry in dict
insertion order, the mode cell, the configuration, the external view and
model state, and the log of commands handed to the command sink. -/
structure ManagerState where
  running : Bool
  controllers : List ControllerEntry
  mode : ControlMode
  config : GamepadConfig
  viewState : ViewState
  modelState : ModelState
  ranCommands : List String
deriving DecidableEq

/-- Pending SDL events drained by the event phase. A device-added event
carries the result of SDL_GameControllerOpen (none when the open failed). -/
inductive GEvent
  | deviceAdded (opened : Option ControllerEntry)
  | deviceRemoved (instanceId : ℕ)
  | buttonDown (button : ℕ)
deriving DecidableEq

/-- SDL_CONTROLLER_BUTTON_START, the mode-toggle button. -/
def START_BUTTON : ℕ := 6

/-- dict assignment self.controllers[instance_id] = controller. -/
def addEntry (l : List ControllerEntry) (c : ControllerEntry) : List ControllerEntry :=
  if l.any (fun e => e.instanceId == c.instanceId) then
    l.map (fun e => if e.instanceId == c.instanceId then c else e)
  else l ++ [c]

/-- Embedding of GamepadManager._handle_event: register a successfully opened
device, close and drop a removed device (no-op when absent), toggle the mode
on the Start button, otherwise run the mapped command if any (failures from
the command sink are caught and logged, never propagated). -/
def handleEvent (st : ManagerState) (e : GEvent) : ManagerState :=
  match e with
  | GEvent.deviceAdded none => st
  | GEvent.deviceAdded (some c) => { st with controllers := addEntry st.controllers c }
  | GEvent.deviceRemoved i =>
    if st.controllers.any (fun e => e.instanceId == i) then
      { st with controllers := st.controllers.filter (fun e => e.instanceId != i) }
    else st
  | GEvent.buttonDown b =>
    if b = START_BUTTON then { st with mode := toggleMode st.mode }
    else
      match getButtonCommand st.config b with
      | some cmd => { st with ranCommands := st.ranCommands ++ [cmd] }
      | none => st

/-- Embedding of GamepadManager._process_controller: read both sticks and both
triggers, derive zoom = right trigger - left trigger, and route the five
scalars to the applier selected by the current mode. -/
def processController (st : ManagerState) (c : ControllerEntry) : Except PyErr ManagerState :=
  let cfg := st.config
  let lp := getLeftStick cfg c.input
  let rp := getRightStick cfg c.input
  let lt := triggerValue c.input.leftTrig
  let rt := triggerValue c.input.rightTrig
  let zoom := rt - lt
  match st.mode with
  | ControlMode.VIEW =>
    (viewApply cfg st.viewState lp.1 lp.2 rp.1 rp.2 zoom).map
      (fun v => { st with viewState := v })
  | ControlMode.MODEL =>
    (modelApply cfg st.modelState lp.1 lp.2 rp.1 rp.2 zoom).map
      (fun m => { st with modelState := m })

/-- Result of one frame tick: the final state, the instance ids whose analog
state was read (in iteration order), and the first uncaught exception. -/
structure UpdateResult where
  state : ManagerState
  readIds : List ℕ
  error : Option PyErr
deriving DecidableEq

/-- The analog phase of GamepadManager.update: process each registered
controller in order; an uncaught exception aborts the remainder of the loop. -/
def analogLoop (st : ManagerState) : List ControllerEntry → UpdateResult
  | [] => ⟨st, [], none⟩
  | c :: rest =>
    match processController st c with
    | Except.ok st1 =>
      let r := analogLoop st1 rest
      ⟨r.state, c.instanceId :: r.readIds, r.error⟩
    | Except.error e => ⟨st, [c.instanceId], some e⟩

/-- The event phase of GamepadManager.update: drain every pending event. -/
def applyEvents (st : ManagerState) (events : List GEvent) : ManagerState :=
  events.foldl handleEvent st

/-- Embedding of GamepadManager.update: nothing when not running, otherwise
drain all pending events, then run the analog phase over the registry that
resulted from the event phase. -/
def update (st : ManagerState) (events : List GEvent) : UpdateResult :=
  if st.running then
    let st1 := applyEvents st events
    analogLoop st1 st1.controllers
  else ⟨st, [], none⟩

/-- A perspective camera with identity orientation, for concrete runs. -/
def demoCamera : Camera :=
  { name := "perspective", fieldWidth := 10, redrawNeeded := false, position := Mat3.idRot }

/-- A concrete view state with pixel size 1 and an empty call log. -/
def demoViewState : ViewState :=
  { camera := demoCamera, pixelSize := some 1, ops := [] }

/-- The orthographic scenario state of the spec: field width 10, pixel size 0.1. -/
def orthoViewState : ViewState :=
  { camera := { name := "orthographic", fieldWidth := 10, redrawNeeded := false,
                position := Mat3.idRot }
    pixelSize := some (1/10)
    ops := [] }

/-- A concrete model state with an empty selection. -/
def demoModelState : ModelState :=
  { models := [], sceneRoot := 0, cameraPos := Mat3.idRot, pixelSize := some 1 }

/-- Helper: the clamped dead-zone write lands in [0, 1/2]. -/
theorem clampDeadZone_mem (v : ℚ) : 0 ≤ qmax 0 (qmin (1/2) v) ∧ qmax 0 (qmin (1/2) v) ≤ 1/2 := by
  rw [qmax_eq, qmin_eq]
  exact ⟨le_max_left _ _, max_le (by norm_num) (min_le_left _ _)⟩

/-- Helper: the clamped sensitivity write lands in [1/10, 5]. -/
theorem clampSens_mem (v : ℚ) : 1/10 ≤ qmax (1/10) (qmin 5 v) ∧ qmax (1/10) (qmin 5 v) ≤ 5 := by
  rw [qmax_eq, qmin_eq]
  exact ⟨le_max_left _ _, max_le (by norm_num) (min_le_left _ _)⟩

/-- Helper: every clamping setter preserves the numeric-range invariant. -/
theorem setter_step (cfg : GamepadConfig) (op : ConfigOp)
    (hcfg : numericInRange cfg) (hop : op.isSetter = true) :
    numericInRange (applyConfigOp cfg op) := by
  obtain ⟨a1, a2, a3, a4, a5, a6, a7, a8⟩ := hcfg
  cases op with
  | setDeadZone v =>
    exact ⟨(clampDeadZone_mem v).1, (clampDeadZone_mem v).2, a3, a4, a5, a6, a7, a8⟩
  | setTranslationSensitivity v =>
    exact ⟨a1, a2, (clampSens_mem v).1, (clampSens_mem v).2, a5, a6, a7, a8⟩
  | setRotationSensitivity v =>
    exact ⟨a1, a2, a3, a4, (clampSens_mem v).1, (clampSens_mem v).2, a7, a8⟩
  | setZoomSensitivity v =>
    exact ⟨a1, a2, a3, a4, a5, a6, (clampSens_mem v).1, (clampSens_mem v).2⟩
  | setInvertY b => exact ⟨a1, a2, a3, a4, a5, a6, a7, a8⟩
  | setButtonCommand n c =>
    simp only [applyConfigOp, setButtonCommand]
    split
    · exact ⟨a1, a2, a3, a4, a5, a6, a7, a8⟩
    · split
      · exact ⟨a1, a2, a3, a4, a5, a6, a7, a8⟩
      · exact ⟨a1, a2, a3, a4, a5, a6, a7, a8⟩
  | load r => simp [ConfigOp.isSetter] at hop
  | fromDict d => simp [ConfigOp.isSetter] at hop

/-- C4 counterexample: loading a persisted document with dead_zone = 0.9 over
the defaults stores 0.9, which is outside [0, 0.5] — load() does not clamp. -/
def badDoc : ConfigDoc :=
  { dead_zone := some (9/10)
    translation_sensitivity := none
    rotation_sensitivity := none
    zoom_sensitivity := none
    invert_y := none
    button_mappings := none }

/-- C4 counterexample: after the operation sequence [load document] where the
document carries dead_zone = 0.9, the stored dead_zone is 0.9 and the
numeric-range invariant is violated. -/
theorem load_stores_out_of_range :
    (applyConfigOps defaultConfig [ConfigOp.load (LoadResult.loaded badDoc)]).dead_zone = 9/10 ∧
    ¬ numericInRange (applyConfigOps defaultConfig [ConfigOp.load (LoadResult.loaded badDoc)]) := by
  constructor
  · rfl
  · intro h
    have := h.2.1
    norm_num [applyConfigOps, applyConfigOp, loadConfig, mergeDoc, badDoc, defaultConfig] at this

/-- C4 (amended): every sequence of clamping setter calls preserves
dead_zone ∈ [0, 0.5] and every sensitivity ∈ [0.1, 5]; the merge-based
load() and from_dict() are excluded because they store document values
verbatim without clamping. -/
theorem setters_preserve_numeric_range (ops : List ConfigOp) (cfg : GamepadConfig)
    (hcfg : numericInRange cfg) (hset : ∀ op ∈ ops, op.isSetter = true) :
    numericInRange (applyConfigOps cfg ops) := by
  induction ops generalizing cfg with
  | nil => exact hcfg
  | cons op rest ih =>
    exact ih (applyConfigOp cfg op)
      (setter_step cfg op hcfg (hset op (List.mem_cons_self _ _)))
      (fun o ho => hset o (List.mem_cons_of_mem _ ho))

/-- Witness for C4 (amended): out-of-range setter arguments are clamped and
the invariant holds after the sequence. -/
theorem setters_preserve_numeric_range_witness :
    (numericInRange defaultConfig ∧
      ∀ op ∈ [ConfigOp.setDeadZone 2, ConfigOp.setTranslationSensitivity 100], op.isSetter = true) ∧
    numericInRange
      (applyConfigOps defaultConfig [ConfigOp.setDeadZone 2, ConfigOp.setTranslationSensitivity 100]) :=
  ⟨⟨by norm_num [numericInRange, defaultConfig], by decide⟩,
   setters_preserve_numeric_range _ defaultConfig
     (by norm_num [numericInRange, defaultConfig]) (by decide)⟩

/-- C6: on an orthographic camera, the zoom applier sets the field width to
max(old - zoom * 15 * sensitivity * pixel_size, pixel_size), so the field
width never drops below the pixel size, and marks the view for redraw; with
field_width 10, pixel_size 0.1, zoom -1, sensitivity 1 the delta is -1.5 and
the new field width is 11.5. -/
theorem ortho_zoom_clamps_field_width (st : ViewState) (z s p : ℚ)
    (hname : st.camera.name = "orthographic") (hp : st.pixelSize = some p) :
    (applyZoomV st z s).camera.fieldWidth = max (st.camera.fieldWidth - z * 15 * s * p) p ∧
    p ≤ (applyZoomV st z s).camera.fieldWidth ∧
    (applyZoomV st z s).camera.redrawNeeded = true ∧
    (applyZoomV orthoViewState (-1) 1).camera.fieldWidth = 23/2 := by
  have hmul : z * (s * 15) * p = z * 15 * s * p := by ring
  have hz : applyZoomV st z s =
      { st with camera := { st.camera with
          fieldWidth := qmax (st.camera.fieldWidth - z * (s * 15) * p) p
          redrawNeeded := true } } := by
    unfold applyZoomV
    rw [hp]
    simp [hname]
  refine ⟨?_, ?_, ?_, ?_⟩
  · rw [hz]
    show qmax (st.camera.fieldWidth - z * (s * 15) * p) p =
      max (st.camera.fieldWidth - z * 15 * s * p) p
    rw [qmax_eq, hmul]
  · rw [hz]
    show p ≤ qmax (st.camera.fieldWidth - z * (s * 15) * p) p
    rw [qmax_eq]
    exact le_max_right _ _
  · rw [hz]
  · with_unfolding_all decide

/-- Witness for C6 at the spec scenario (field width 10, pixel size 0.1,
zoom -1, sensitivity 1). -/
theorem ortho_zoom_clamps_field_width_witness :
    (orthoViewState.camera.name = "orthographic" ∧ orthoViewState.pixelSize = some (1/10)) ∧
    ((applyZoomV orthoViewState (-1) 1).camera.fieldWidth =
        max (orthoViewState.camera.fieldWidth - (-1) * 15 * 1 * (1/10)) (1/10) ∧
      (1/10 : ℚ) ≤ (applyZoomV orthoViewState (-1) 1).camera.fieldWidth ∧
      (applyZoomV orthoViewState (-1) 1).camera.redrawNeeded = true ∧
      (applyZoomV orthoViewState (-1) 1).camera.fieldWidth = 23/2) :=
  ⟨⟨rfl, rfl⟩, ortho_zoom_clamps_field_width orthoViewState (-1) 1 (1/10) rfl rfl⟩

/-- C7: when each of the five scalars has absolute value below the 0.001
epsilon, ViewAction.apply and ModelAction.apply return without mutating any
external view, camera or model state. -/
theorem idle_inputs_no_mutation :
    (∀ (cfg : GamepadConfig) (st : ViewState) (px py rx ry z : ℚ),
        |px| < EPS → |py| < EPS → |rx| < EPS → |ry| < EPS → |z| < EPS →
        viewApply cfg st px py rx ry z = Except.ok st) ∧
    (∀ (cfg : GamepadConfig) (st : ModelState) (tx ty rx ry tz : ℚ),
        |tx| < EPS → |ty| < EPS → |rx| < EPS → |ry| < EPS → |tz| < EPS →
        modelApply cfg st tx ty rx ry tz = Except.ok st) := by
  constructor
  · intro cfg st px py rx ry z h1 h2 h3 h4 h5
    rw [← qabs_eq] at h1 h2 h3 h4 h5
    unfold viewApply
    rw [if_pos ⟨h1, h2, h3, h4, h5⟩]
  · intro cfg st tx ty rx ry tz h1 h2 h3 h4 h5
    rw [← qabs_eq] at h1 h2 h3 h4 h5
    unfold modelApply
    split
    · rfl
    · rw [if_pos ⟨h1, h2, h3, h4, h5⟩]

/-- Witness for C7 at all-zero inputs. -/
theorem idle_inputs_no_mutation_witness :
    |(0 : ℚ)| < EPS ∧
    viewApply defaultConfig demoViewState 0 0 0 0 0 = Except.ok demoViewState ∧
    modelApply defaultConfig demoModelState 0 0 0 0 0 = Except.ok demoModelState := by
  have h : |(0 : ℚ)| < EPS := by norm_num [EPS]
  exact ⟨h, idle_inputs_no_mutation.1 defaultConfig demoViewState 0 0 0 0 0 h h h h h,
    idle_inputs_no_mutation.2 defaultConfig demoModelState 0 0 0 0 0 h h h h h⟩

/-- C10: a falsy command (None or the empty string) removes any existing
mapping for that button name, is a silent no-op when none exists, and only
non-empty command strings are ever stored in the mapping table. -/
theorem set_button_command_falsy_removes :
    (∀ (cfg : GamepadConfig) (name : String) (command : Option String),
        (command = none ∨ command = some "") →
        ((∀ b : ℕ, buttonToName b = name →
            getButtonCommand (setButtonCommand cfg name command) b = none) ∧
          (cfg.button_mappings.any (fun p => p.1 == name) = false →
            setButtonCommand cfg name command = cfg))) ∧
    (∀ (cfg : GamepadConfig) (name : String) (command : Option String) (p : String × String),
        (∀ q ∈ cfg.button_mappings, q.2 ≠ "") →
        p ∈ (setButtonCommand cfg name command).button_mappings → p.2 ≠ "") := by
  constructor
  · intro cfg name command hcmd
    have ht : commandTruthy command = false := by
      rcases hcmd with h | h <;> subst h <;> rfl
    constructor
    · intro b hb
      unfold getButtonCommand dictLookup
      rw [hb]
      unfold setButtonCommand
      rw [ht]
      by_cases hany : cfg.button_mappings.any (fun p => p.1 == name) = true
      · rw [if_neg (by simp), if_pos hany]
        have hfind : (cfg.button_mappings.filter (fun p => p.1 != name)).find?
            (fun p => p.1 == name) = none := by
          rw [List.find?_eq_none]
          intro x hx
          have := (List.mem_filter.mp hx).2
          simp only [bne_iff_ne, ne_eq] at this
          simp [this]
        simp [hfind]
      · rw [if_neg (by simp), if_neg hany]
        have hany2 : cfg.button_mappings.any (fun p => p.1 == name) = false := by
          cases h2 : cfg.button_mappings.any (fun p => p.1 == name) with
          | false => rfl
          | true => exact absurd h2 hany
        have hfind : cfg.button_mappings.find? (fun p => p.1 == name) = none := by
          rw [List.find?_eq_none]
          intro x hx
          have := List.any_eq_false.mp hany2 x hx
          simpa using this
        simp [hfind]
    · intro hany
      unfold setButtonCommand
      rw [ht]
      rw [if_neg (by simp), if_neg (by simp [hany])]
  · intro cfg name command p hq hp
    unfold setButtonCommand at hp
    by_cases hc : commandTruthy command = true
    · rw [if_pos hc] at hp
      obtain ⟨s, hs⟩ : ∃ s, command = some s := by
        cases command with
        | none => simp [commandTruthy] at hc
        | some s => exact ⟨s, rfl⟩
      subst hs
      have hse : s ≠ "" := by
        simpa [commandTruthy] using hc
      simp only [Option.getD_some] at hp
      unfold dictSet at hp
      split at hp
      · simp only [List.mem_map] at hp
        obtain ⟨q, hql, hqe⟩ := hp
        by_cases hk : q.1 == name
        · rw [if_pos hk] at hqe
          rw [← hqe]
          exact hse
        · rw [if_neg hk] at hqe
          rw [← hqe]
          exact hq q hql
      · rw [List.mem_append] at hp
        rcases hp with h | h
        · exact hq p h
        · simp only [List.mem_singleton] at h
          rw [h]
          exact hse
    · rw [if_neg hc] at hp
      split at hp
      · exact hq p (List.mem_of_mem_filter hp)
      · exact hq p hp

/-- Witness for C10 on a one-entry mapping table. -/
def cfgBtn : GamepadConfig :=
  { defaultConfig with button_mappings := [("A", "select clear")] }

/-- Witness for C10: removing via None, and storing a non-empty command. -/
theorem set_button_command_falsy_removes_witness :
    getButtonCommand (setButtonCommand cfgBtn "A" none) 0 = none ∧
    (∀ q ∈ cfgBtn.button_mappings, q.2 ≠ "") ∧
    (∀ p ∈ (setButtonCommand cfgBtn "A" (some "view initial")).button_mappings, p.2 ≠ "") := by
  refine ⟨(set_button_command_falsy_removes.1 cfgBtn "A" none (Or.inl rfl)).1 0 rfl, by decide, ?_⟩
  intro p hp
  exact set_button_command_falsy_removes.2 cfgBtn "A" (some "view initial") p (by decide) hp

instance {ε α : Type} [DecidableEq ε] [DecidableEq α] : DecidableEq (Except ε α) :=
  fun a b =>
    match a, b with
    | Except.ok x, Except.ok y =>
      match decEq x y with
      | isTrue h => isTrue (h ▸ rfl)
      | isFalse h => isFalse (fun hc => h (by injection hc))
    | Except.error e, Except.error f =>
      match decEq e f with
      | isTrue h => isTrue (h ▸ rfl)
      | isFalse h => isFalse (fun hc => h (by injection hc))
    | Except.ok _, Except.error _ => isFalse (fun hc => by injection hc)
    | Except.error _, Except.ok _ => isFalse (fun hc => by injection hc)

/-- A config reachable by gamepad commands: rotation_sensitivity set to 2 via
its clamping setter, view sensitivity set to 1 via gamepad sensitivity view. -/
def cfgC2 : GamepadConfig := setViewSensitivity (setRotationSensitivity defaultConfig 2) 1

/-- C2 counterexample: with rotation_sensitivity = 2 but view sensitivity 1, a
pure-rotation invocation applies the angle rotate_x * (view_sensitivity * 2)
= 2 degrees, not rotate_x * rotation_sensitivity * 2 = 4 degrees: the
applier does not read the store's rotation_sensitivity field. -/
theorem viewApply_angle_ignores_rotation_sensitivity :
    viewApply cfgC2 demoViewState 0 0 1 0 0 =
      Except.ok { demoViewState with ops := [ViewOp.rotate ⟨0, 1, 0⟩ 2] } ∧
    cfgC2.rotation_sensitivity = 2 ∧
    (2 : ℚ) ≠ 1 * cfgC2.rotation_sensitivity * 2 := by
  with_unfolding_all decide

/-- C2 (amended): each applier multiplies rotation, pan and zoom by one
single active sensitivity — the view_sensitivity attribute for ViewAction and
the model_sensitivity attribute for ModelAction; the output is independent of
the store's clamped rotation / translation / zoom sensitivity fields, and on
a pure-rotation input the applied angle is rotate_x * (view_sensitivity * 2). -/
theorem applier_single_active_sensitivity :
    (∀ (cfg cfg' : GamepadConfig) (st : ViewState) (px py rx ry z : ℚ),
        cfg.view_sensitivity = cfg'.view_sensitivity →
        viewApply cfg st px py rx ry z = viewApply cfg' st px py rx ry z) ∧
    (∀ (cfg cfg' : GamepadConfig) (st : ModelState) (tx ty rx ry tz : ℚ),
        cfg.model_sensitivity = cfg'.model_sensitivity →
        modelApply cfg st tx ty rx ry tz = modelApply cfg' st tx ty rx ry tz) ∧
    (∀ (cfg : GamepadConfig) (st : ViewState) (s rx : ℚ),
        cfg.view_sensitivity = some s → EPS < |rx| →
        viewApply cfg st 0 0 rx 0 0 =
          Except.ok { st with ops := st.ops ++
            [ViewOp.rotate (st.camera.position.transformVector ⟨0, 1, 0⟩) (rx * (s * 2))] }) := by
  refine ⟨?_, ?_, ?_⟩
  · intro cfg cfg' st px py rx ry z h
    unfold viewApply
    rw [h]
  · intro cfg cfg' st tx ty rx ry tz h
    unfold modelApply
    rw [h]
  · intro cfg st s rx hs hrx
    rw [← qabs_eq] at hrx
    have e0 : ¬ (EPS < qabs (0 : ℚ)) := by
      rw [qabs_eq]
      norm_num [EPS]
    have hne : ¬ (qabs (0 : ℚ) < EPS ∧ qabs (0 : ℚ) < EPS ∧ qabs rx < EPS ∧
        qabs (0 : ℚ) < EPS ∧ qabs (0 : ℚ) < EPS) := by
      rintro ⟨-, -, h3, -, -⟩
      exact absurd h3 (not_lt.mpr hrx.le)
    have eoX : EPS < qabs rx ∨ EPS < qabs (0 : ℚ) := Or.inl hrx
    have eoP : ¬ (EPS < qabs (0 : ℚ) ∨ EPS < qabs (0 : ℚ)) := by
      rintro (h | h) <;> exact e0 h
    have hrot : applyRotationV st rx 0 s = { st with ops := st.ops ++
        [ViewOp.rotate (st.camera.position.transformVector ⟨0, 1, 0⟩) (rx * (s * 2))] } := by
      simp only [applyRotationV, if_pos hrx, if_neg e0]
    simp only [viewApply, hs, if_neg hne, if_pos eoX, if_neg eoP, if_neg e0, hrot]

/-- Witness for C2 (amended): concrete applications of all three parts. -/
theorem applier_single_active_sensitivity_witness :
    (cfgC2.view_sensitivity = (setViewSensitivity defaultConfig 1).view_sensitivity ∧
      viewApply cfgC2 demoViewState 3 0 0 0 0 =
        viewApply (setViewSensitivity defaultConfig 1) demoViewState 3 0 0 0 0) ∧
    (cfgC2.model_sensitivity = defaultConfig.model_sensitivity ∧
      modelApply cfgC2 demoModelState 3 0 0 0 0 =
        modelApply defaultConfig demoModelState 3 0 0 0 0) ∧
    (cfgC2.view_sensitivity = some 1 ∧ EPS < |(1 : ℚ)| ∧
      viewApply cfgC2 demoViewState 0 0 1 0 0 =
        Except.ok { demoViewState with ops := demoViewState.ops ++
          [ViewOp.rotate (demoViewState.camera.position.transformVector ⟨0, 1, 0⟩)
            (1 * (1 * 2))] }) :=
  ⟨⟨rfl, applier_single_active_sensitivity.1 cfgC2 (setViewSensitivity defaultConfig 1)
      demoViewState 3 0 0 0 0 rfl⟩,
   ⟨rfl, applier_single_active_sensitivity.2.1 cfgC2 defaultConfig
      demoModelState 3 0 0 0 0 rfl⟩,
   ⟨rfl, by norm_num [EPS],
    applier_single_active_sensitivity.2.2 cfgC2 demoViewState 1 1 rfl (by norm_num [EPS])⟩⟩

/-- C9 counterexample: dead_zone 0 is a legal configured value (it is what the
clamping setter stores for the argument -1), and the most negative raw axis
value -32768 normalizes to -32768/32767 < -1, outside [-1, 1]. -/
theorem stick_output_exceeds_unit_interval :
    (setDeadZone defaultConfig (-1)).dead_zone = 0 ∧
    normalizeAxis 0 (-32768) < -1 := by
  with_unfolding_all decide

/-- Helper: the magnitude of a normalized axis value is bounded by the
rescaled bound (B - d)/(1 - d) whenever the raw magnitude over AXIS_MAX is
bounded by B. -/
theorem normalizeAxis_abs_le (d B : ℚ) (v : ℤ) (h0 : 0 ≤ d) (h1 : d ≤ 1/2)
    (hB : 1 ≤ B) (hn : |(v : ℚ) / 32767| ≤ B) :
    |normalizeAxis d v| ≤ (B - d) / (1 - d) := by
  have hd : (0 : ℚ) < 1 - d := by linarith
  have hnum : (0 : ℚ) ≤ B - d := by linarith
  simp only [normalizeAxis, AXIS_MAX, qabs_eq]
  split
  · rw [abs_zero]
    exact div_nonneg hnum hd.le
  · rename_i h
    push_neg at h
    have habs : |(if 0 < (v : ℚ) / 32767 then (1 : ℚ) else -1) *
        (|(v : ℚ) / 32767| - d) / (1 - d)| = (|(v : ℚ) / 32767| - d) / (1 - d) := by
      rw [abs_div, abs_mul]
      rw [abs_of_pos hd]
      rw [abs_of_nonneg (by linarith : (0 : ℚ) ≤ |(v : ℚ) / 32767| - d)]
      have : |(if 0 < (v : ℚ) / 32767 then (1 : ℚ) else -1)| = 1 := by
        split <;> norm_num
      rw [this, one_mul]
    rw [habs]
    exact (div_le_div_right hd).mpr (by linarith)

/-- C9 (amended): for raw stick values in -32768..32767 (so magnitude up to
32768 after Y-inversion) the post-dead-zone output magnitude is bounded by
(32768/32767 - d)/(1 - d); it is within [-1, 1] whenever the raw magnitude is
at most 32767, exceeding 1 only marginally at raw magnitude 32768; each
normalized trigger lies in [0, 1] and zoom = right - left lies in [-1, 1]. -/
theorem frame_scalars_bounded (d : ℚ) (v lt rt : ℤ) (h0 : 0 ≤ d) (h1 : d ≤ 1/2)
    (hv : |v| ≤ 32768) (hlt : lt ≤ 32767) (hrt : rt ≤ 32767) :
    |normalizeAxis d v| ≤ (32768/32767 - d) / (1 - d) ∧
    (|v| ≤ 32767 → |normalizeAxis d v| ≤ 1) ∧
    0 ≤ triggerValue lt ∧ triggerValue lt ≤ 1 ∧
    0 ≤ triggerValue rt ∧ triggerValue rt ≤ 1 ∧
    |triggerValue rt - triggerValue lt| ≤ 1 := by
  have hd : (0 : ℚ) < 1 - d := by linarith
  have trig_lo : ∀ t : ℤ, 0 ≤ triggerValue t := by
    intro t
    unfold triggerValue AXIS_MAX
    apply div_nonneg _ (by norm_num)
    exact_mod_cast le_max_left 0 t
  have trig_hi : ∀ t : ℤ, t ≤ 32767 → triggerValue t ≤ 1 := by
    intro t ht
    unfold triggerValue AXIS_MAX
    rw [div_le_one (by norm_num)]
    exact_mod_cast max_le (by norm_num) ht
  refine ⟨?_, ?_, trig_lo lt, trig_hi lt hlt, trig_lo rt, trig_hi rt hrt, ?_⟩
  · apply normalizeAxis_abs_le d (32768/32767) v h0 h1 (by norm_num)
    rw [abs_div, abs_of_pos (by norm_num : (0 : ℚ) < 32767)]
    have hvq : |(v : ℚ)| ≤ 32768 := by exact_mod_cast hv
    exact (div_le_div_right (by norm_num)).mpr (by linarith)
  · intro h
    have hvq : |(v : ℚ)| ≤ 32767 := by exact_mod_cast h
    have := normalizeAxis_abs_le d 1 v h0 h1 le_rfl (by
      rw [abs_div, abs_of_pos (by norm_num : (0 : ℚ) < 32767)]
      rw [div_le_one (by norm_num)]
      exact hvq)
    rwa [div_self (ne_of_gt hd)] at this
  · rw [abs_le]
    constructor
    · have := trig_hi lt hlt
      have := trig_lo rt
      linarith
    · have := trig_hi rt hrt
      have := trig_lo lt
      linarith

/-- Witness for C9 (amended) at d = 0.15, v = -32768, triggers 0 and 32767. -/
theorem frame_scalars_bounded_witness :
    ((0 : ℚ) ≤ 3/20 ∧ (3/20 : ℚ) ≤ 1/2 ∧ |(-32768 : ℤ)| ≤ 32768 ∧
      (0 : ℤ) ≤ 32767 ∧ (32767 : ℤ) ≤ 32767) ∧
    (|normalizeAxis (3/20) (-32768)| ≤ (32768/32767 - 3/20) / (1 - 3/20) ∧
      0 ≤ triggerValue 0 ∧ triggerValue 0 ≤ 1 ∧
      0 ≤ triggerValue 32767 ∧ triggerValue 32767 ≤ 1 ∧
      |triggerValue 32767 - triggerValue 0| ≤ 1) := by
  have h := frame_scalars_bounded (3/20) (-32768) 0 32767 (by norm_num) (by norm_num)
    (by norm_num) (by norm_num) (by norm_num)
  exact ⟨⟨by norm_num, by norm_num, by norm_num, by norm_num, by norm_num⟩,
    ⟨h.1, h.2.2.1, h.2.2.2.1, h.2.2.2.2.1, h.2.2.2.2.2.1, h.2.2.2.2.2.2⟩⟩

/-- Helper: mapping an Except.ok through Except.map inverts to a preimage. -/
theorem except_map_ok {α β ε : Type} (f : α → β) (x : Except ε α) (b : β)
    (h : x.map f = Except.ok b) : ∃ a, x = Except.ok a ∧ b = f a := by
  cases x with
  | ok a =>
    simp only [Except.map] at h
    injection h with h2
    exact ⟨a, rfl, h2.symm⟩
  | error e => simp [Except.map] at h

/-- Helper: processing a controller never changes the registry. -/
theorem processController_preserves_controllers (st : ManagerState) (c : ControllerEntry)
    (st1 : ManagerState) (h : processController st c = Except.ok st1) :
    st1.controllers = st.controllers := by
  unfold processController at h
  split at h
  · obtain ⟨v, hv, hb⟩ := except_map_ok _ _ _ h
    rw [hb]
  · obtain ⟨v, hv, hb⟩ := except_map_ok _ _ _ h
    rw [hb]

/-- Helper: when the analog loop finishes without an exception it reads
exactly the controllers it was given, in order, and leaves the registry
untouched. -/
theorem analogLoop_ok_spec (l : List ControllerEntry) (st : ManagerState)
    (h : (analogLoop st l).error = none) :
    (analogLoop st l).readIds = l.map (fun c => c.instanceId) ∧
    (analogLoop st l).state.controllers = st.controllers := by
  induction l generalizing st with
  | nil => exact ⟨rfl, rfl⟩
  | cons c rest ih =>
    unfold analogLoop at h ⊢
    cases hp : processController st c with
    | ok st1 =>
      rw [hp] at h
      have h2 : (analogLoop st1 rest).error = none := h
      obtain ⟨hr, hs⟩ := ih st1 h2
      constructor
      · show c.instanceId :: (analogLoop st1 rest).readIds =
          c.instanceId :: rest.map (fun c => c.instanceId)
        rw [hr]
      · show (analogLoop st1 rest).state.controllers = st.controllers
        rw [hs, processController_preserves_controllers st c st1 hp]
    | error e =>
      rw [hp] at h
      exact absurd h (by simp)

/-- C3: a frame tick first drains every pending event and only then runs the
analog pass, so when no controller raises, the analog pass reads exactly the
controllers registered after the event phase — a controller removed by a
pending event is excluded and one added by a pending event is included. -/
theorem update_event_phase_precedes_analog (st : ManagerState) (events : List GEvent)
    (hrun : st.running = true)
    (hok : (update st events).error = none) :
    (update st events).state.controllers = (applyEvents st events).controllers ∧
    (update st events).readIds =
      (applyEvents st events).controllers.map (fun c => c.instanceId) := by
  unfold update at hok ⊢
  rw [if_pos hrun] at hok ⊢
  obtain ⟨hr, hs⟩ := analogLoop_ok_spec (applyEvents st events).controllers
    (applyEvents st events) hok
  exact ⟨hs, hr⟩

/-- A controller whose sticks and triggers are all at rest. -/
def idleInput : ControllerInput := ⟨0, 0, 0, 0, 0, 0⟩

/-- Connected controller with instance id 1. -/
def ctrlOne : ControllerEntry := ⟨1, idleInput⟩

/-- Connected controller with instance id 2. -/
def ctrlTwo : ControllerEntry := ⟨2, idleInput⟩

/-- Two controllers connected, VIEW mode, default configuration. -/
def mgrTwo : ManagerState :=
  { running := true
    controllers := [ctrlOne, ctrlTwo]
    mode := ControlMode.VIEW
    config := defaultConfig
    viewState := demoViewState
    modelState := demoModelState
    ranCommands := [] }

/-- The spec scenario event queue: one pending disconnect of controller 1. -/
def disconnectEvents : List GEvent := [GEvent.deviceRemoved 1]

/-- Witness for C3 at the spec scenario: two controllers, one pending
disconnect; the registry holds exactly controller 2 after the event phase and
the analog phase reads exactly controller 2. -/
theorem update_event_phase_precedes_analog_witness :
    (mgrTwo.running = true ∧ (update mgrTwo disconnectEvents).error = none) ∧
    ((update mgrTwo disconnectEvents).state.controllers =
        (applyEvents mgrTwo disconnectEvents).controllers ∧
      (update mgrTwo disconnectEvents).readIds =
        (applyEvents mgrTwo disconnectEvents).controllers.map (fun c => c.instanceId)) ∧
    (applyEvents mgrTwo disconnectEvents).controllers.map (fun c => c.instanceId) = [2] ∧
    (update mgrTwo disconnectEvents).readIds = [2] := by
  have he : (update mgrTwo disconnectEvents).error = none := by with_unfolding_all decide
  refine ⟨⟨rfl, he⟩, update_event_phase_precedes_analog mgrTwo disconnectEvents rfl he, ?_, ?_⟩
  · with_unfolding_all decide
  · with_unfolding_all decide

/-- Controller 1 with the left stick pushed fully right. -/
def hotInput : ControllerInput := ⟨32767, 0, 0, 0, 0, 0⟩

/-- Two controllers, the first with non-idle input, fresh default config on
which the view sensitivity attribute was never assigned. -/
def mgrCrash : ManagerState :=
  { mgrTwo with controllers := [⟨1, hotInput⟩, ctrlTwo] }

/-- C5: evaluation of the failing frame. With two controllers connected and
the first one delivering non-idle input under a fresh configuration,
ViewAction.apply raises AttributeError reading config.view_sensitivity, the
uncaught exception aborts the frame loop, and controller 2 — though
connected — is never read: per-device failures are not isolated. -/
theorem controller_error_aborts_frame :
    mgrCrash.controllers.map (fun c => c.instanceId) = [1, 2] ∧
    (update mgrCrash []).error = some PyErr.attributeError ∧
    (update mgrCrash []).readIds = [1] := by
  with_unfolding_all decide

/-- Helper: a pair drawn from zipping a list with its image under a map
relates by that map. -/
theorem zip_map_snd {α : Type} (f : α → α) (l : List α) :
    ∀ p ∈ l.zip (l.map f), p.2 = f p.1 := by
  induction l with
  | nil => intro p hp; cases hp
  | cons a t ih =>
    intro p hp
    rw [List.map_cons, List.zip_cons_cons] at hp
    rcases List.mem_cons.mp hp with h | h
    · rw [h]
    · exact ih p h

/-- Helper: the rotation stage only changes the pose of a model. -/
theorem eligible_rotOne (root : ℕ) (cameraPos : Mat3) (rx ry s : ℚ) (m : SceneModel) :
    eligibleModel root (rotOne cameraPos rx ry s m) = eligibleModel root m := rfl

/-- Helper: the translation stage only changes the pose of a model. -/
theorem eligible_transOne (root : ℕ) (shift : Vec3) (m : SceneModel) :
    eligibleModel root (transOne shift m) = eligibleModel root m := rfl

/-- Helper: with an active horizontal rotation the rotation stage strictly
lengthens the pose composition. -/
theorem rotOne_len_lt (cameraPos : Mat3) (rx ry s : ℚ) (m : SceneModel)
    (hrx : EPS < qabs rx) :
    m.position.length < (rotOne cameraPos rx ry s m).position.length := by
  unfold rotOne
  dsimp only
  rw [if_pos hrx]
  split
  · simp only [List.length_cons]
    omega
  · simp only [List.length_cons]
    omega

/-- Helper: the translation stage strictly lengthens the pose composition. -/
theorem transOne_len_lt (shift : Vec3) (m : SceneModel) :
    m.position.length < (transOne shift m).position.length := by
  simp [transOne]

/-- Helper: the XY translation stage maps the model list with a shared-shift
per-model function gated on eligibility. -/
theorem applyTranslationXYM_models (st : ModelState) (tx ty s : ℚ) :
    ∃ sh : Vec3, (applyTranslationXYM st tx ty s).models =
      st.models.map (fun m => if eligibleModel st.sceneRoot m then transOne sh m else m) :=
  ⟨_, rfl⟩

/-- Helper: the Z translation stage maps the model list with a shared-shift
per-model function gated on eligibility. -/
theorem applyTranslationZM_models (st : ModelState) (tz s : ℚ) :
    ∃ sh : Vec3, (applyTranslationZM st tz s).models =
      st.models.map (fun m => if eligibleModel st.sceneRoot m then transOne sh m else m) :=
  ⟨_, rfl⟩

/-- C8: during a transforming invocation (active rotation input, nonempty
eligible selection, model sensitivity assigned) a selected model is
transformed exactly when it has no parent or its parent is the scene root;
for a Model instance with a position attribute that condition is exactly the
eligibility test; and with an empty eligible selection ModelAction.apply is a
complete no-op even on nonzero inputs. -/
theorem modelAction_transforms_exactly_eligible :
    (∀ (cfg : GamepadConfig) (st : ModelState) (tx ty rx ry tz s : ℚ),
        cfg.model_sensitivity = some s → (selectedModels st).isEmpty = false →
        EPS < |rx| →
        ∃ st3, modelApply cfg st tx ty rx ry tz = Except.ok st3 ∧
          st3.models.length = st.models.length ∧
          ∀ p ∈ st.models.zip st3.models,
            (eligibleModel st.sceneRoot p.1 = true → p.2.position ≠ p.1.position) ∧
            (eligibleModel st.sceneRoot p.1 = false → p.2 = p.1)) ∧
    (∀ (root : ℕ) (m : SceneModel), m.is_model = true → m.has_position = true →
        (eligibleModel root m = true ↔ m.parent = none ∨ m.parent = some root)) ∧
    (∀ (cfg : GamepadConfig) (st : ModelState) (tx ty rx ry tz : ℚ),
        (selectedModels st).isEmpty = true →
        modelApply cfg st tx ty rx ry tz = Except.ok st) := by
  refine ⟨?_, ?_, ?_⟩
  · intro cfg st tx ty rx ry tz s hs hne hrx
    rw [← qabs_eq] at hrx
    have hgate1 : EPS < qabs rx ∨ EPS < qabs ry := Or.inl hrx
    have hnidle : ¬ (qabs tx < EPS ∧ qabs ty < EPS ∧ qabs rx < EPS ∧ qabs ry < EPS ∧
        qabs tz < EPS) := by
      rintro ⟨-, -, h3, -, -⟩
      exact absurd h3 (not_lt.mpr hrx.le)
    have hnemp : ¬ (selectedModels st).isEmpty = true := by
      rw [hne]
      exact Bool.false_ne_true
    set st1 := applyRotationM st rx ry s with hst1
    set st2 := (if EPS < qabs tx ∨ EPS < qabs ty then applyTranslationXYM st1 tx ty s else st1)
      with hst2
    set st3 := (if EPS < qabs tz then applyTranslationZM st2 tz s else st2) with hst3
    have happ : modelApply cfg st tx ty rx ry tz = Except.ok st3 := by
      simp only [modelApply, hs, if_neg hnemp, if_neg hnidle, if_pos hgate1, hst1, hst2, hst3]
    have hroot1 : st1.sceneRoot = st.sceneRoot := rfl
    have hroot2 : st2.sceneRoot = st.sceneRoot := by
      rw [hst2]
      split <;> rfl
    -- the composed per-model function
    have f1id : ∀ m, eligibleModel st.sceneRoot m = false →
        (if eligibleModel st.sceneRoot m then rotOne st.cameraPos rx ry s m else m) = m := by
      intro m h
      rw [if_neg (by simp [h])]
    have htail : ∃ G : SceneModel → SceneModel,
        st3.models = st1.models.map G ∧
        (∀ m, eligibleModel st.sceneRoot m = false → G m = m) ∧
        (∀ m, m.position.length ≤ (G m).position.length) ∧
        (∀ m, eligibleModel st.sceneRoot (G m) = eligibleModel st.sceneRoot m) := by
      obtain ⟨sh2, hm2⟩ := applyTranslationXYM_models st1 tx ty s
      obtain ⟨sh3, hm3⟩ := applyTranslationZM_models st2 tz s
      rw [hroot1] at hm2
      rw [hroot2] at hm3
      by_cases hg2 : EPS < qabs tx ∨ EPS < qabs ty <;>
        by_cases hg3 : EPS < qabs tz
      · refine ⟨fun m => (fun m => if eligibleModel st.sceneRoot m then transOne sh3 m else m)
          ((fun m => if eligibleModel st.sceneRoot m then transOne sh2 m else m) m), ?_, ?_, ?_, ?_⟩
        · rw [hst3, if_pos hg3, hm3, hst2, if_pos hg2, hm2, List.map_map]
          rfl
        · intro m h
          dsimp only
          rw [if_neg (by simp [h]), if_neg (by simp [h])]
        · intro m
          dsimp only
          by_cases he : eligibleModel st.sceneRoot m = true
          · rw [if_pos he, if_pos (by rw [eligible_transOne]; exact he)]
            exact le_of_lt (lt_trans (transOne_len_lt sh2 m) (transOne_len_lt sh3 _))
          · rw [if_neg he, if_neg he]
        · intro m
          dsimp only
          by_cases he : eligibleModel st.sceneRoot m = true
          · rw [if_pos he, if_pos (by rw [eligible_transOne]; exact he),
              eligible_transOne, eligible_transOne]
          · rw [if_neg he, if_neg he]
      · refine ⟨fun m => if eligibleModel st.sceneRoot m then transOne sh2 m else m,
          ?_, ?_, ?_, ?_⟩
        · rw [hst3, if_neg hg3, hst2, if_pos hg2, hm2]
        · intro m h
          dsimp only
          rw [if_neg (by simp [h])]
        · intro m
          dsimp only
          by_cases he : eligibleModel st.sceneRoot m = true
          · rw [if_pos he]
            exact le_of_lt (transOne_len_lt sh2 m)
          · rw [if_neg he]
        · intro m
          dsimp only
          by_cases he : eligibleModel st.sceneRoot m = true
          · rw [if_pos he, eligible_transOne]
          · rw [if_neg he]
      · obtain ⟨sh3b, hm3b⟩ := applyTranslationZM_models st1 tz s
        rw [hroot1] at hm3b
        refine ⟨fun m => if eligibleModel st.sceneRoot m then transOne sh3b m else m,
          ?_, ?_, ?_, ?_⟩
        · rw [hst3, if_pos hg3, hst2, if_neg hg2, hm3b]
        · intro m h
          dsimp only
          rw [if_neg (by simp [h])]
        · intro m
          dsimp only
          by_cases he : eligibleModel st.sceneRoot m = true
          · rw [if_pos he]
            exact le_of_lt (transOne_len_lt sh3b m)
          · rw [if_neg he]
        · intro m
          dsimp only
          by_cases he : eligibleModel st.sceneRoot m = true
          · rw [if_pos he, eligible_transOne]
          · rw [if_neg he]
      · refine ⟨id, ?_, ?_, ?_, ?_⟩
        · rw [hst3, if_neg hg3, hst2, if_neg hg2, List.map_id]
        · intro m h
          rfl
        · intro m
          exact le_rfl
        · intro m
          rfl
    obtain ⟨G, hG, hGid, hGlen, hGkeep⟩ := htail
    have hcomp : st3.models = st.models.map (fun m =>
        G (if eligibleModel st.sceneRoot m then rotOne st.cameraPos rx ry s m else m)) := by
      rw [hG, hst1]
      show (st.models.map fun m =>
        if eligibleModel st.sceneRoot m then rotOne st.cameraPos rx ry s m else m).map G =
        _
      rw [List.map_map]
      rfl
    refine ⟨st3, happ, ?_, ?_⟩
    · rw [hcomp, List.length_map]
    · intro p hp
      rw [hcomp] at hp
      have hps := zip_map_snd _ st.models p hp
      constructor
      · intro hel heq
        have h1 : p.1.position.length <
            (rotOne st.cameraPos rx ry s p.1).position.length := rotOne_len_lt _ _ _ _ _ hrx
        have h2 : (rotOne st.cameraPos rx ry s p.1).position.length ≤
            (G (rotOne st.cameraPos rx ry s p.1)).position.length := hGlen _
        have h3 : p.2.position.length = p.1.position.length := by rw [heq]
        rw [hps, if_pos hel] at h3
        omega
      · intro hel
        rw [hps, f1id p.1 hel, hGid p.1 hel]
  · intro root m hm hp
    unfold eligibleModel
    rw [hm, hp]
    simp only [Bool.true_and, Bool.or_eq_true, beq_iff_eq]
  · intro cfg st tx ty rx ry tz hemp
    unfold modelApply
    rw [if_pos hemp]

/-- Eligible selected model: no parent, bounding center absent. -/
def modelFree : SceneModel :=
  { is_model := true, has_position := true, parent := none, bounds := none, position := [] }

/-- Ineligible selected model: its parent is the non-root node 5. -/
def modelNested : SceneModel :=
  { is_model := true, has_position := true, parent := some 5, bounds := none, position := [] }

/-- Selection containing one eligible and one nested model; scene root id 0. -/
def stC8 : ModelState :=
  { models := [modelFree, modelNested], sceneRoot := 0, cameraPos := Mat3.idRot,
    pixelSize := some 1 }

/-- Config with model sensitivity assigned via gamepad sensitivity model 1. -/
def cfgC8 : GamepadConfig := setModelSensitivity defaultConfig 1

/-- Witness for C8: concrete applications of all three parts. -/
theorem modelAction_transforms_exactly_eligible_witness :
    (cfgC8.model_sensitivity = some 1 ∧ (selectedModels stC8).isEmpty = false ∧
      EPS < |(1 : ℚ)| ∧
      ∃ st3, modelApply cfgC8 stC8 0 0 1 0 0 = Except.ok st3 ∧
        st3.models.length = stC8.models.length ∧
        ∀ p ∈ stC8.models.zip st3.models,
          (eligibleModel stC8.sceneRoot p.1 = true → p.2.position ≠ p.1.position) ∧
          (eligibleModel stC8.sceneRoot p.1 = false → p.2 = p.1)) ∧
    (modelFree.is_model = true ∧ modelFree.has_position = true ∧
      (eligibleModel 0 modelFree = true ↔ modelFree.parent = none ∨ modelFree.parent = some 0)) ∧
    ((selectedModels demoModelState).isEmpty = true ∧
      modelApply cfgC8 demoModelState 1 1 1 1 1 = Except.ok demoModelState) := by
  have h1 : EPS < |(1 : ℚ)| := by norm_num [EPS]
  refine ⟨⟨rfl, by decide, h1,
      modelAction_transforms_exactly_eligible.1 cfgC8 stC8 0 0 1 0 0 1 rfl (by decide) h1⟩,
    ⟨rfl, rfl, modelAction_transforms_exactly_eligible.2.1 0 modelFree rfl rfl⟩,
    ⟨rfl, modelAction_transforms_exactly_eligible.2.2 cfgC8 demoModelState 1 1 1 1 1 rfl⟩⟩

end Gamepad
